import Mathlib

/-!
Shallow embedding of the stream-decorator, socket and writer layers of the
decaf I/O library (activemq-cpp excerpt): FilterInputStream.h, TcpSocket.h,
Writer.h.  Exceptions are modelled with Except, C++ object state by explicit
state passing.
-/

/-- Exception kinds that can cross a stream-operation boundary:
IOException, UnsupportedOperationException, or any other lang::Exception. -/
inductive StreamError : Type where
  | ioKind : StreamError
  | unsupportedKind : StreamError
  | otherKind : StreamError
deriving DecidableEq

/-- Apply a function to the error of an Except, leaving successes alone.
Models a C++ catch block that rethrows a (possibly replaced) exception. -/
def mapErr {ε α : Type} (f : ε → ε) : Except ε α → Except ε α
  | .ok a => .ok a
  | .error e => .error (f e)

/-- The DECAF_CATCH_RETHROW(IOException) / DECAF_CATCHALL_THROW(IOException)
pair: an IOException passes through unchanged, anything else is replaced by a
fresh IOException. -/
def convErr : StreamError → StreamError
  | .ioKind => .ioKind
  | .unsupportedKind => .ioKind
  | .otherKind => .ioKind

/-- The catch pair of FilterInputStream::skip: UnsupportedOperationException
and IOException are rethrown unchanged, anything else becomes IOException. -/
def convErrSkip : StreamError → StreamError
  | .unsupportedKind => .unsupportedKind
  | .ioKind => .ioKind
  | .otherKind => .ioKind

/-- An InputStream over a state type σ: the virtual operations a wrapped
stream supplies.  readOneDoc is the documented result of the single-unit
read: some byte, or none at end of stream; the C++ method returns it through
the unsigned char return type (see InputStream.readOne below). -/
structure InputStream (σ : Type) : Type where
  availableFn : σ → Except StreamError Nat
  readOneDoc : σ → Except StreamError (Option Nat × σ)
  readBufFn : σ → Nat → Except StreamError (Int × List Nat × σ)
  closeFn : σ → Except StreamError σ
  skipFn : σ → Nat → Except StreamError (Nat × σ)

/-- C++ conversion of an int to unsigned char: reduction modulo 2^8. -/
def toUnsignedChar (i : Int) : Nat := (i % 256).toNat

/-- The documented end-of-stream sentinel of the single-unit read. -/
def eofSentinel : Int := -1

/-- What the unsigned char return type makes of the documented read result:
a byte is returned as is (already in range), end of stream returns the
sentinel -1 squeezed through unsigned char. -/
def ucharOfRead : Option Nat → Nat
  | none => toUnsignedChar eofSentinel
  | some b => b % 256

/-- The single-unit read as the C++ caller observes it: the documented
result carried through the unsigned char return type. -/
def InputStream.readOne {σ : Type} (s : InputStream σ) (st : σ) :
    Except StreamError (Nat × σ) :=
  (s.readOneDoc st).map (fun p => (ucharOfRead p.1, p.2))

/-- A Mutex over a state type μ: the operations of the Synchronizable
contract that decorators delegate to. -/
structure Mutex (μ : Type) : Type where
  lockFn : μ → Except StreamError μ
  unlockFn : μ → Except StreamError μ
  waitFn : μ → Except StreamError μ
  waitTimedFn : μ → Nat → Except StreamError μ
  notifyFn : μ → Except StreamError μ
  notifyAllFn : μ → Except StreamError μ

/-- FilterInputStream: the wrapped stream, the synchronization object, and
the ownership flag, as in the class members at FilterInputStream.h lines
39-48. -/
structure FilterInputStream (σ μ : Type) : Type where
  inputStream : InputStream σ
  mutex : Mutex μ
  own : Bool

/-- The default of the constructor argument own (FilterInputStream.h line
57: bool own = false). -/
def filterConstructorDefaultOwn : Bool := false

/-- The combined mutable state of a decorator: the wrapped stream state and
the mutex state. -/
structure DecoratorState (σ μ : Type) : Type where
  innerState : σ
  mutexState : μ

/-- FilterInputStream::available: return inputStream->available() inside the
rethrow-IO catch pair. -/
def FilterInputStream.available {σ μ : Type} (f : FilterInputStream σ μ)
    (st : σ) : Except StreamError Nat :=
  mapErr convErr (f.inputStream.availableFn st)

/-- FilterInputStream::read(): return inputStream->read() inside the
rethrow-IO catch pair; the return type is unsigned char. -/
def FilterInputStream.read {σ μ : Type} (f : FilterInputStream σ μ)
    (st : σ) : Except StreamError (Nat × σ) :=
  mapErr convErr (f.inputStream.readOne st)

/-- FilterInputStream::read(buffer, bufferSize): return
inputStream->read(buffer, bufferSize) inside the rethrow-IO catch pair. -/
def FilterInputStream.readBuffer {σ μ : Type} (f : FilterInputStream σ μ)
    (st : σ) (bufferSize : Nat) : Except StreamError (Int × List Nat × σ) :=
  mapErr convErr (f.inputStream.readBufFn st bufferSize)

/-- FilterInputStream::close: inputStream->close() inside the rethrow-IO
catch pair. -/
def FilterInputStream.close {σ μ : Type} (f : FilterInputStream σ μ)
    (st : σ) : Except StreamError σ :=
  mapErr convErr (f.inputStream.closeFn st)

/-- FilterInputStream::skip: return inputStream->skip(num) inside the catch
pair that rethrows UnsupportedOperationException and IOException and turns
anything else into IOException.  There is no special case for num = 0. -/
def FilterInputStream.skip {σ μ : Type} (f : FilterInputStream σ μ)
    (st : σ) (num : Nat) : Except StreamError (Nat × σ) :=
  mapErr convErrSkip (f.inputStream.skipFn st num)

/-- FilterInputStream::lock: mutex.lock(); only the mutex state is touched,
the wrapped stream state is carried through unchanged. -/
def FilterInputStream.lock {σ μ : Type} (f : FilterInputStream σ μ)
    (st : DecoratorState σ μ) : Except StreamError (DecoratorState σ μ) :=
  (f.mutex.lockFn st.mutexState).map
    (fun ms => { innerState := st.innerState, mutexState := ms })

/-- FilterInputStream::unlock: mutex.unlock(). -/
def FilterInputStream.unlock {σ μ : Type} (f : FilterInputStream σ μ)
    (st : DecoratorState σ μ) : Except StreamError (DecoratorState σ μ) :=
  (f.mutex.unlockFn st.mutexState).map
    (fun ms => { innerState := st.innerState, mutexState := ms })

/-- FilterInputStream::wait(): mutex.wait(). -/
def FilterInputStream.waitOn {σ μ : Type} (f : FilterInputStream σ μ)
    (st : DecoratorState σ μ) : Except StreamError (DecoratorState σ μ) :=
  (f.mutex.waitFn st.mutexState).map
    (fun ms => { innerState := st.innerState, mutexState := ms })

/-- FilterInputStream::wait(millisecs): mutex.wait(millisecs). -/
def FilterInputStream.waitTimed {σ μ : Type} (f : FilterInputStream σ μ)
    (st : DecoratorState σ μ) (millisecs : Nat) :
    Except StreamError (DecoratorState σ μ) :=
  (f.mutex.waitTimedFn st.mutexState millisecs).map
    (fun ms => { innerState := st.innerState, mutexState := ms })

/-- FilterInputStream::notify: mutex.notify(). -/
def FilterInputStream.notifyOne {σ μ : Type} (f : FilterInputStream σ μ)
    (st : DecoratorState σ μ) : Except StreamError (DecoratorState σ μ) :=
  (f.mutex.notifyFn st.mutexState).map
    (fun ms => { innerState := st.innerState, mutexState := ms })

/-- FilterInputStream::notifyAll: mutex.notifyAll(). -/
def FilterInputStream.notifyEvery {σ μ : Type} (f : FilterInputStream σ μ)
    (st : DecoratorState σ μ) : Except StreamError (DecoratorState σ μ) :=
  (f.mutex.notifyAllFn st.mutexState).map
    (fun ms => { innerState := st.innerState, mutexState := ms })

/-- Outcome of running a destructor body: how many times the wrapped
stream's destructor ran, and the exception escaping to the caller, if any. -/
structure DtorOutcome : Type where
  innerDestroyed : Nat
  escaped : Option StreamError
deriving DecidableEq

/-- Running delete inputStream: the wrapped stream is destroyed once; its
destruction may itself raise. -/
def deleteInnerStream (innerRaises : Option StreamError) : DtorOutcome :=
  { innerDestroyed := 1, escaped := innerRaises }

/-- The DECAF_CATCH_NOTHROW / DECAF_CATCHALL_NOTHROW pair around the
destructor body: whatever was raised is caught and suppressed. -/
def catchNoThrow (r : DtorOutcome) : DtorOutcome :=
  { innerDestroyed := r.innerDestroyed, escaped := none }

/-- FilterInputStream::~FilterInputStream: inside the nothrow catch pair,
delete inputStream exactly when own is true. -/
def filterDestructor (own : Bool) (innerRaises : Option StreamError) :
    DtorOutcome :=
  catchNoThrow
    (if own then deleteInnerStream innerRaises
     else { innerDestroyed := 0, escaped := none })

/-- Error kinds of the socket layer, from the error taxonomy of the design:
state, null, bounds, argument, connection and generic I/O failures. -/
inductive SockError : Type where
  | ioKind : SockError
  | boundsKind : SockError
  | nullKind : SockError
  | stateKind : SockError
  | connectionKind : SockError
  | argumentKind : SockError
deriving DecidableEq

/-- Modelled from the spec: the TcpSocket data model (TcpSocket.h lines
58-108; TcpSocket.cpp is not part of the excerpt).  The opaque OS handle is
an Option, absent when not connected; recvQueue stands for the bytes the
connection will still deliver (empty meaning end of stream) and sentBytes
for everything written so far. -/
structure TcpSocketState : Type where
  socketHandle : Option Nat
  closed : Bool
  inputShutdown : Bool
  outputShutdown : Bool
  trafficClass : Int
  recvQueue : List Nat
  sentBytes : List Nat
deriving DecidableEq

/-- Overwrite buf from position offset on with data, keeping the rest. -/
def writeAt (buf : List Nat) (offset : Nat) (data : List Nat) : List Nat :=
  buf.take offset ++ data ++ buf.drop (offset + data.length)

/-- Modelled from the spec: TcpSocket::read(buffer, size, offset, length)
(declared TcpSocket.h lines 241-244, body not in the excerpt).  A closed
socket fails with StateKind before anything else; a null buffer fails with
NullKind; offset + length beyond size fails with BoundsKind before any
transfer; then up to length bytes are moved from the receive queue into the
buffer at offset, the count is returned, or -1 at end of stream. -/
def tcpRead (st : TcpSocketState) (buffer : Option (List Nat))
    (size offset length : Nat) :
    Except SockError (Int × List Nat × TcpSocketState) :=
  if st.closed then .error .stateKind
  else
    match buffer with
    | none => .error .nullKind
    | some buf =>
      if size < offset + length then .error .boundsKind
      else if st.socketHandle = none then .error .stateKind
      else if st.inputShutdown then .error .stateKind
      else if length = 0 then .ok (0, buf, st)
      else if st.recvQueue.isEmpty then .ok (-1, buf, st)
      else
        let n := min length st.recvQueue.length
        .ok (Int.ofNat n, writeAt buf offset (st.recvQueue.take n),
             { st with recvQueue := st.recvQueue.drop n })

/-- Modelled from the spec: TcpSocket::write(buffer, size, offset, length)
(declared TcpSocket.h lines 262-265, body not in the excerpt).  The same
closed / null / bounds checks guard the transfer; on success all length
bytes from offset are appended to what the socket has sent. -/
def tcpWrite (st : TcpSocketState) (buffer : Option (List Nat))
    (size offset length : Nat) :
    Except SockError TcpSocketState :=
  if st.closed then .error .stateKind
  else
    match buffer with
    | none => .error .nullKind
    | some buf =>
      if size < offset + length then .error .boundsKind
      else if st.socketHandle = none then .error .stateKind
      else if st.outputShutdown then .error .stateKind
      else .ok { st with sentBytes := st.sentBytes ++ (buf.drop offset).take length }

/-- Modelled from the spec: TcpSocket::available (declared TcpSocket.h line
194): bytes readable without blocking; fails with StateKind once closed. -/
def tcpAvailable (st : TcpSocketState) : Except SockError Nat :=
  if st.closed then .error .stateKind
  else .ok st.recvQueue.length

/-- Modelled from the spec: TcpSocket::close (declared TcpSocket.h line
199): releases the handle and sets the monotonic closed flag; idempotent
and never an error, the shutdown flags are left alone. -/
def tcpClose (st : TcpSocketState) : Except SockError TcpSocketState :=
  .ok { st with closed := true, socketHandle := none }

/-- Modelled from the spec: TcpSocket::shutdownInput (declared TcpSocket.h
line 204): irreversibly sets inputShutdown, touching nothing else; on a
closed socket it fails with StateKind like every non-close operation. -/
def tcpShutdownInput (st : TcpSocketState) : Except SockError TcpSocketState :=
  if st.closed then .error .stateKind
  else .ok { st with inputShutdown := true }

/-- Modelled from the spec: TcpSocket::shutdownOutput (declared TcpSocket.h
line 209): irreversibly sets outputShutdown, touching nothing else. -/
def tcpShutdownOutput (st : TcpSocketState) : Except SockError TcpSocketState :=
  if st.closed then .error .stateKind
  else .ok { st with outputShutdown := true }

/-- The modelled socket operations, for stating state invariants over every
operation at once. -/
inductive SockOp : Type where
  | readOp : Option (List Nat) → Nat → Nat → Nat → SockOp
  | writeOp : Option (List Nat) → Nat → Nat → Nat → SockOp
  | availableOp : SockOp
  | closeOp : SockOp
  | shutdownInputOp : SockOp
  | shutdownOutputOp : SockOp

/-- The socket state after an operation; a failing operation leaves the
state as it was. -/
def applyOp (st : TcpSocketState) : SockOp → TcpSocketState
  | .readOp b s o l =>
    match tcpRead st b s o l with
    | .ok r => r.2.2
    | .error _ => st
  | .writeOp b s o l =>
    match tcpWrite st b s o l with
    | .ok st2 => st2
    | .error _ => st
  | .availableOp => st
  | .closeOp =>
    match tcpClose st with
    | .ok st2 => st2
    | .error _ => st
  | .shutdownInputOp =>
    match tcpShutdownInput st with
    | .ok st2 => st2
    | .error _ => st
  | .shutdownOutputOp =>
    match tcpShutdownOutput st with
    | .ok st2 => st2
    | .error _ => st

/-- Error kinds of the character-writer layer. -/
inductive WriteErr : Type where
  | ioKind : WriteErr
  | nullKind : WriteErr
  | boundsKind : WriteErr
deriving DecidableEq

/-- The one mandatory Writer primitive, doWriteArrayBounded (declared
Writer.h lines 151-155): given the concrete writer state, a buffer (None
standing for a null pointer), its size, an offset and a length, it either
fails or yields the new writer state. -/
def WritePrim (ω : Type) : Type :=
  ω → Option (List Char) → Nat → Nat → Nat → Except WriteErr ω

/-- Modelled from the spec: Writer::write(char v) (Writer.cpp is not in the
excerpt) funnels a one-character buffer into the bounded primitive. -/
def Writer.writeChar {ω : Type} (p : WritePrim ω) (w : ω) (v : Char) :
    Except WriteErr ω :=
  p w (some [v]) 1 0 1

/-- Modelled from the spec: Writer::write(vector of char) hands the whole
vector to the bounded primitive. -/
def Writer.writeVector {ω : Type} (p : WritePrim ω) (w : ω)
    (buffer : List Char) : Except WriteErr ω :=
  p w (some buffer) buffer.length 0 buffer.length

/-- Modelled from the spec: Writer::write(buffer, size) hands the full
buffer range to the bounded primitive. -/
def Writer.writeArray {ω : Type} (p : WritePrim ω) (w : ω)
    (buffer : Option (List Char)) (size : Nat) : Except WriteErr ω :=
  p w buffer size 0 size

/-- Modelled from the spec: Writer::write(buffer, size, offset, length) is
the public face of the bounded primitive itself. -/
def Writer.writeArrayBounded {ω : Type} (p : WritePrim ω) (w : ω)
    (buffer : Option (List Char)) (size offset length : Nat) :
    Except WriteErr ω :=
  p w buffer size offset length

/-- Modelled from the spec: Writer::write(string) hands the whole string to
the bounded primitive. -/
def Writer.writeString {ω : Type} (p : WritePrim ω) (w : ω)
    (str : List Char) : Except WriteErr ω :=
  p w (some str) str.length 0 str.length

/-- Modelled from the spec: Writer::write(string, offset, length) checks
offset + length against the string length, failing with BoundsKind, and
otherwise hands the range to the bounded primitive. -/
def Writer.writeStringBounded {ω : Type} (p : WritePrim ω) (w : ω)
    (str : List Char) (offset length : Nat) : Except WriteErr ω :=
  if str.length < offset + length then .error .boundsKind
  else p w (some str) str.length offset length

/-- Modelled from the spec: Writer::append(char) writes the one character
and returns the writer itself for chaining. -/
def Writer.appendChar {ω : Type} (p : WritePrim ω) (w : ω) (v : Char) :
    Except WriteErr ω :=
  Writer.writeChar p w v

/-- Modelled from the spec: Writer::append(csq) writes the whole character
sequence. -/
def Writer.appendCharSeq {ω : Type} (p : WritePrim ω) (w : ω)
    (csq : List Char) : Except WriteErr ω :=
  Writer.writeString p w csq

/-- Modelled from the spec: Writer::append(csq, start, end) checks the
range against the sequence, failing with BoundsKind, then writes the
characters from start up to but not including stop. -/
def Writer.appendCharSeqRange {ω : Type} (p : WritePrim ω) (w : ω)
    (csq : List Char) (start stop : Nat) : Except WriteErr ω :=
  if stop < start ∨ csq.length < stop then .error .boundsKind
  else Writer.writeString p w ((csq.drop start).take (stop - start))

/-- A harmless wrapped stream for witnesses: available reports the state,
reads count up, skip advances by the requested amount, nothing ever fails. -/
def pureStream : InputStream Nat where
  availableFn st := .ok st
  readOneDoc st := .ok (some (st % 256), st + 1)
  readBufFn st n := .ok (Int.ofNat n, List.replicate n 0, st)
  closeFn st := .ok st
  skipFn st n := .ok (n, st + n)

/-- A wrapped stream whose skip returns 3 and advances the state whatever
the requested count, including 0: a legal InputStream, since how many bytes
skip skips is up to the stream. -/
def oddSkipStream : InputStream Nat where
  availableFn _ := .ok 0
  readOneDoc st := .ok (none, st)
  readBufFn st _ := .ok (-1, [], st)
  closeFn st := .ok st
  skipFn st _ := .ok (3, st + 1)

/-- A wrapped stream that is at end of stream: the single-unit read
documents the -1 sentinel. -/
def eofStream : InputStream Nat where
  availableFn _ := .ok 0
  readOneDoc st := .ok (none, st)
  readBufFn st _ := .ok (-1, [], st)
  closeFn st := .ok st
  skipFn st _ := .ok (0, st)

/-- A trivial mutex over Unit for building concrete decorators. -/
def unitMutex : Mutex Unit where
  lockFn ms := .ok ms
  unlockFn ms := .ok ms
  waitFn ms := .ok ms
  waitTimedFn ms _ := .ok ms
  notifyFn ms := .ok ms
  notifyAllFn ms := .ok ms

/-- A wrapped stream respects the declared throw specifications of the
InputStream interface when available, the reads and close can only raise
IOException, and skip only IOException or
UnsupportedOperationException. -/
structure RespectsDecl {σ : Type} (s : InputStream σ) : Prop where
  availErr : ∀ st e, s.availableFn st = .error e → e = .ioKind
  readErr : ∀ st e, s.readOneDoc st = .error e → e = .ioKind
  readBufErr : ∀ st n e, s.readBufFn st n = .error e → e = .ioKind
  closeErr : ∀ st e, s.closeFn st = .error e → e = .ioKind
  skipErr : ∀ st n e, s.skipFn st n = .error e →
    e = .ioKind ∨ e = .unsupportedKind

/-- A catch pair whose error replacement fixes every error the computation
can actually raise changes nothing. -/
theorem mapErr_eq_self {ε α : Type} (f : ε → ε) (r : Except ε α)
    (h : ∀ e, r = .error e → f e = e) : mapErr f r = r := by
  cases r with
  | ok a => rfl
  | error e => simp [mapErr, h e rfl]

/-- pureStream never raises, so it respects the declared throws. -/
theorem pureStream_respects : RespectsDecl pureStream := by
  constructor <;> intro st <;> intros <;> simp_all [pureStream]

/-- C1: every stream operation of the decorator contract (available, read
one unit, read into buffer, close, skip) returns exactly the result of the
same operation on the wrapped stream, arguments and results untouched,
whenever the wrapped stream raises only the exceptions its interface
declares. -/
theorem filter_forwards_every_op {σ μ : Type} (f : FilterInputStream σ μ)
    (h : RespectsDecl f.inputStream) (st : σ) (n : Nat) :
    f.available st = f.inputStream.availableFn st ∧
    f.read st = f.inputStream.readOne st ∧
    f.readBuffer st n = f.inputStream.readBufFn st n ∧
    f.close st = f.inputStream.closeFn st ∧
    f.skip st n = f.inputStream.skipFn st n := by
  refine ⟨?_, ?_, ?_, ?_, ?_⟩
  · exact mapErr_eq_self _ _ (fun e he => by cases h.availErr st e he; rfl)
  · cases hd : f.inputStream.readOneDoc st with
    | ok p =>
      simp [FilterInputStream.read, InputStream.readOne, hd, Except.map, mapErr]
    | error e2 =>
      have h3 : e2 = StreamError.ioKind := h.readErr st e2 hd
      subst h3
      simp [FilterInputStream.read, InputStream.readOne, hd, Except.map, mapErr,
            convErr]
  · exact mapErr_eq_self _ _ (fun e he => by cases h.readBufErr st n e he; rfl)
  · exact mapErr_eq_self _ _ (fun e he => by cases h.closeErr st e he; rfl)
  · apply mapErr_eq_self
    intro e he
    rcases h.skipErr st n e he with h1 | h1 <;> (cases h1; rfl)

/-- Witness for C1: the decorator over pureStream at state 5, buffer size
3, agrees with the wrapped stream on all five operations. -/
theorem filter_forwards_every_op_witness :
    RespectsDecl pureStream ∧
    (FilterInputStream.available ⟨pureStream, unitMutex, false⟩ 5 =
       pureStream.availableFn 5 ∧
     FilterInputStream.read ⟨pureStream, unitMutex, false⟩ 5 =
       pureStream.readOne 5 ∧
     FilterInputStream.readBuffer ⟨pureStream, unitMutex, false⟩ 5 3 =
       pureStream.readBufFn 5 3 ∧
     FilterInputStream.close ⟨pureStream, unitMutex, false⟩ 5 =
       pureStream.closeFn 5 ∧
     FilterInputStream.skip ⟨pureStream, unitMutex, false⟩ 5 3 =
       pureStream.skipFn 5 3) :=
  ⟨pureStream_respects,
   filter_forwards_every_op ⟨pureStream, unitMutex, false⟩ pureStream_respects 5 3⟩

/-- C2 counterexample: skip(0) on a decorator over oddSkipStream forwards
to the wrapped skip and returns its count 3 with the advanced state, not
the count 0 with untouched state the claim demands for n equal to 0 (the
only value of the unsigned parameter with n at most 0). -/
theorem filter_skip_zero_counterexample :
    FilterInputStream.skip ⟨oddSkipStream, unitMutex, false⟩ 0 0 = .ok (3, 1) ∧
    FilterInputStream.skip ⟨oddSkipStream, unitMutex, false⟩ 0 0 ≠ .ok (0, 0) := by
  constructor
  · rfl
  · simp [FilterInputStream.skip, oddSkipStream, mapErr]

/-- C2 (amended): the skip parameter is unsigned, so n at most 0 means
n = 0; for n = 0 exactly as for every other n, the decorator forwards skip
to the wrapped stream and returns its result, with no short-circuit. -/
theorem filter_skip_zero_forwards {σ μ : Type} (f : FilterInputStream σ μ)
    (st : σ) (r : Nat × σ) (h : f.inputStream.skipFn st 0 = .ok r) :
    f.skip st 0 = .ok r := by
  simp [FilterInputStream.skip, h, mapErr]

/-- Witness for amended C2: with oddSkipStream, skip(0) yields the wrapped
result (3, 1). -/
theorem filter_skip_zero_forwards_witness :
    oddSkipStream.skipFn 0 0 = .ok (3, 1) ∧
    FilterInputStream.skip ⟨oddSkipStream, unitMutex, false⟩ 0 0 = .ok (3, 1) :=
  ⟨rfl, filter_skip_zero_forwards ⟨oddSkipStream, unitMutex, false⟩ 0 (3, 1) rfl⟩

/-- C3: destroying an own=true decorator destroys the wrapped stream
exactly once, whatever that destruction raises; with own=false, the
constructor default, the wrapped stream is never destroyed. -/
theorem filter_dtor_ownership (innerRaises : Option StreamError) :
    (filterDestructor true innerRaises).innerDestroyed = 1 ∧
    (filterDestructor false innerRaises).innerDestroyed = 0 ∧
    filterConstructorDefaultOwn = false :=
  ⟨rfl, rfl, rfl⟩

/-- C4: the decorator destructor never lets an exception escape, whatever
the ownership flag and whatever destroying the wrapped stream raises. -/
theorem filter_dtor_noexcept (own : Bool) (innerRaises : Option StreamError) :
    (filterDestructor own innerRaises).escaped = none := by
  cases own <;> rfl

/-- A concrete open socket state for witnesses: connected handle, nothing
shut down, two bytes waiting. -/
def sock0 : TcpSocketState :=
  { socketHandle := some 1, closed := false, inputShutdown := false,
    outputShutdown := false, trafficClass := 0, recvQueue := [10, 20],
    sentBytes := [] }

/-- A successful read leaves both shutdown flags and the closed flag as
they were. -/
theorem tcpRead_preserves_flags (st : TcpSocketState) (b : Option (List Nat))
    (s o l : Nat) (r : Int × List Nat × TcpSocketState)
    (h : tcpRead st b s o l = .ok r) :
    r.2.2.inputShutdown = st.inputShutdown ∧
    r.2.2.outputShutdown = st.outputShutdown := by
  unfold tcpRead at h
  repeat' split at h
  all_goals simp at h
  all_goals (subst h; simp)

/-- A successful write leaves both shutdown flags as they were. -/
theorem tcpWrite_preserves_flags (st : TcpSocketState) (b : Option (List Nat))
    (s o l : Nat) (st2 : TcpSocketState)
    (h : tcpWrite st b s o l = .ok st2) :
    st2.inputShutdown = st.inputShutdown ∧
    st2.outputShutdown = st.outputShutdown := by
  unfold tcpWrite at h
  repeat' split at h
  all_goals simp at h
  all_goals (subst h; simp)

/-- C5: a socket read or write whose offset plus length exceeds the stated
buffer size fails with BoundsKind and changes nothing, and one handed a
null buffer fails with NullKind, on any not yet closed socket. -/
theorem tcp_bounds_null_checks (st : TcpSocketState) (buf : List Nat)
    (size offset length : Nat) (hclosed : st.closed = false) :
    (size < offset + length →
      tcpRead st (some buf) size offset length = .error .boundsKind ∧
      tcpWrite st (some buf) size offset length = .error .boundsKind ∧
      applyOp st (.readOp (some buf) size offset length) = st ∧
      applyOp st (.writeOp (some buf) size offset length) = st) ∧
    (tcpRead st none size offset length = .error .nullKind ∧
     tcpWrite st none size offset length = .error .nullKind) := by
  constructor
  · intro hb
    have hr : tcpRead st (some buf) size offset length = .error .boundsKind := by
      simp [tcpRead, hclosed, hb]
    have hw : tcpWrite st (some buf) size offset length = .error .boundsKind := by
      simp [tcpWrite, hclosed, hb]
    exact ⟨hr, hw, by simp [applyOp, hr], by simp [applyOp, hw]⟩
  · exact ⟨by simp [tcpRead, hclosed], by simp [tcpWrite, hclosed]⟩

/-- Witness for C5 on the concrete open socket: offset 1, length 2 in a
buffer of size 2 is rejected with BoundsKind, the null buffer with
NullKind, and the socket state stands. -/
theorem tcp_bounds_null_checks_witness :
    sock0.closed = false ∧ (2 : Nat) < 1 + 2 ∧
    tcpRead sock0 (some [0, 0]) 2 1 2 = .error .boundsKind ∧
    tcpWrite sock0 (some [0, 0]) 2 1 2 = .error .boundsKind ∧
    applyOp sock0 (.readOp (some [0, 0]) 2 1 2) = sock0 ∧
    tcpRead sock0 none 2 1 1 = .error .nullKind ∧
    tcpWrite sock0 none 2 1 1 = .error .nullKind := by
  have h1 := (tcp_bounds_null_checks sock0 [0, 0] 2 1 2 rfl).1 (by decide)
  have h2 := (tcp_bounds_null_checks sock0 [0, 0] 2 1 1 rfl).2
  exact ⟨rfl, by decide, h1.1, h1.2.1, h1.2.2.1, h2.1, h2.2⟩

/-- C6: once close() has run, every read, write or available call fails
with StateKind, and a second close() succeeds and changes nothing more. -/
theorem tcp_closed_fails_and_close_idempotent (st st1 : TcpSocketState)
    (buffer : Option (List Nat)) (size offset length : Nat)
    (h : tcpClose st = .ok st1) :
    tcpRead st1 buffer size offset length = .error .stateKind ∧
    tcpWrite st1 buffer size offset length = .error .stateKind ∧
    tcpAvailable st1 = .error .stateKind ∧
    tcpClose st1 = .ok st1 := by
  simp only [tcpClose, Except.ok.injEq] at h
  subst h
  refine ⟨by simp [tcpRead], by simp [tcpWrite], by simp [tcpAvailable], ?_⟩
  simp [tcpClose]

/-- Witness for C6 on the concrete socket: after closing sock0, read fails
with StateKind and closing again returns the same state without error. -/
theorem tcp_closed_fails_witness :
    tcpClose sock0 = .ok { sock0 with closed := true, socketHandle := none } ∧
    tcpRead { sock0 with closed := true, socketHandle := none }
      (some [0]) 1 0 1 = .error .stateKind ∧
    tcpClose { sock0 with closed := true, socketHandle := none } =
      .ok { sock0 with closed := true, socketHandle := none } := by
  have h := tcp_closed_fails_and_close_idempotent sock0
    { sock0 with closed := true, socketHandle := none } (some [0]) 1 0 1 rfl
  exact ⟨rfl, h.1, h.2.2.2⟩

/-- C7: on an open socket, shutting down input then output — or in the
other order — leaves both flags set; a second shutdownInput succeeds and
does not revert outputShutdown; and no modelled operation ever resets a
shutdown flag once it is true. -/
theorem tcp_shutdown_flags (st : TcpSocketState) (hclosed : st.closed = false) :
    (tcpShutdownInput st).bind tcpShutdownOutput =
      .ok { st with inputShutdown := true, outputShutdown := true } ∧
    (tcpShutdownOutput st).bind tcpShutdownInput =
      .ok { st with inputShutdown := true, outputShutdown := true } ∧
    (tcpShutdownInput st).bind tcpShutdownInput =
      .ok { st with inputShutdown := true } ∧
    (∀ st2 op, st2.inputShutdown = true → (applyOp st2 op).inputShutdown = true) ∧
    (∀ st2 op, st2.outputShutdown = true → (applyOp st2 op).outputShutdown = true) := by
  refine ⟨?_, ?_, ?_, ?_, ?_⟩
  · simp [tcpShutdownInput, tcpShutdownOutput, hclosed, Except.bind]
  · simp [tcpShutdownInput, tcpShutdownOutput, hclosed, Except.bind]
  · simp [tcpShutdownInput, hclosed, Except.bind]
  · intro st2 op hflag
    cases op with
    | readOp b s o l =>
      cases hr : tcpRead st2 b s o l with
      | ok r =>
        simp [applyOp, hr, (tcpRead_preserves_flags st2 b s o l r hr).1, hflag]
      | error e => simp [applyOp, hr, hflag]
    | writeOp b s o l =>
      cases hw : tcpWrite st2 b s o l with
      | ok r =>
        simp [applyOp, hw, (tcpWrite_preserves_flags st2 b s o l r hw).1, hflag]
      | error e => simp [applyOp, hw, hflag]
    | availableOp => simpa [applyOp] using hflag
    | closeOp => simp [applyOp, tcpClose, hflag]
    | shutdownInputOp =>
      by_cases hc : st2.closed = true
      · simp [applyOp, tcpShutdownInput, hc, hflag]
      · simp [applyOp, tcpShutdownInput, hc, hflag]
    | shutdownOutputOp =>
      by_cases hc : st2.closed = true
      · simp [applyOp, tcpShutdownOutput, hc, hflag]
      · simp [applyOp, tcpShutdownOutput, hc, hflag]
  · intro st2 op hflag
    cases op with
    | readOp b s o l =>
      cases hr : tcpRead st2 b s o l with
      | ok r =>
        simp [applyOp, hr, (tcpRead_preserves_flags st2 b s o l r hr).2, hflag]
      | error e => simp [applyOp, hr, hflag]
    | writeOp b s o l =>
      cases hw : tcpWrite st2 b s o l with
      | ok r =>
        simp [applyOp, hw, (tcpWrite_preserves_flags st2 b s o l r hw).2, hflag]
      | error e => simp [applyOp, hw, hflag]
    | availableOp => simpa [applyOp] using hflag
    | closeOp => simp [applyOp, tcpClose, hflag]
    | shutdownInputOp =>
      by_cases hc : st2.closed = true
      · simp [applyOp, tcpShutdownInput, hc, hflag]
      · simp [applyOp, tcpShutdownInput, hc, hflag]
    | shutdownOutputOp =>
      by_cases hc : st2.closed = true
      · simp [applyOp, tcpShutdownOutput, hc, hflag]
      · simp [applyOp, tcpShutdownOutput, hc, hflag]

/-- Witness for C7 on the concrete open socket: both shutdown orders set
both flags, and close does not reset a set inputShutdown flag. -/
theorem tcp_shutdown_flags_witness :
    sock0.closed = false ∧
    (tcpShutdownInput sock0).bind tcpShutdownOutput =
      .ok { sock0 with inputShutdown := true, outputShutdown := true } ∧
    (tcpShutdownInput sock0).bind tcpShutdownInput =
      .ok { sock0 with inputShutdown := true } ∧
    (applyOp { sock0 with inputShutdown := true } .closeOp).inputShutdown = true := by
  have h := tcp_shutdown_flags sock0 rfl
  exact ⟨rfl, h.1, h.2.2.1, h.2.2.2.1 { sock0 with inputShutdown := true } .closeOp rfl⟩

/-- A primitive that succeeds and ignores its arguments, for witnesses. -/
def noopPrim : WritePrim Nat := fun w _ _ _ _ => .ok w

/-- C8: every public Writer overload funnels into the one mandatory
primitive doWriteArrayBounded, or into an overload that does: the
character, vector, array, string and append overloads each reduce to a
single primitive call on the arguments shown, with only the bounded string
and ranged append adding their own bounds check first. -/
theorem writer_overloads_funnel {ω : Type} (p : WritePrim ω) (w : ω) (v : Char)
    (buffer : List Char) (abuf : Option (List Char)) (size : Nat)
    (str : List Char) (offset length start stop : Nat)
    (hb : offset + length ≤ str.length) (hs : start ≤ stop)
    (he : stop ≤ str.length) :
    Writer.writeChar p w v = p w (some [v]) 1 0 1 ∧
    Writer.writeVector p w buffer = p w (some buffer) buffer.length 0 buffer.length ∧
    Writer.writeArray p w abuf size = p w abuf size 0 size ∧
    Writer.writeArrayBounded p w abuf size offset length = p w abuf size offset length ∧
    Writer.writeString p w str = p w (some str) str.length 0 str.length ∧
    Writer.writeStringBounded p w str offset length = p w (some str) str.length offset length ∧
    Writer.appendChar p w v = p w (some [v]) 1 0 1 ∧
    Writer.appendCharSeq p w str = p w (some str) str.length 0 str.length ∧
    Writer.appendCharSeqRange p w str start stop =
      p w (some ((str.drop start).take (stop - start)))
        ((str.drop start).take (stop - start)).length 0
        ((str.drop start).take (stop - start)).length := by
  refine ⟨rfl, rfl, rfl, rfl, rfl, ?_, rfl, rfl, ?_⟩
  · simp only [Writer.writeStringBounded]
    rw [if_neg (by omega)]
  · simp only [Writer.appendCharSeqRange]
    rw [if_neg (by omega)]
    rfl

/-- Witness for C8 with the no-op primitive: the bounded string write at
offset 1 length 1 in a two-character string reaches the primitive, and the
ranged append of the first character reduces to a one-character string
write of the primitive. -/
theorem writer_overloads_funnel_witness :
    1 + 1 ≤ (['a', 'b'] : List Char).length ∧ 0 ≤ 1 ∧
    (1 : Nat) ≤ (['a', 'b'] : List Char).length ∧
    Writer.writeStringBounded noopPrim 0 ['a', 'b'] 1 1 =
      noopPrim 0 (some ['a', 'b']) (['a', 'b'] : List Char).length 1 1 ∧
    Writer.appendCharSeqRange noopPrim 0 ['a', 'b'] 0 1 =
      noopPrim 0 (some ((['a', 'b'] : List Char).take 1))
        ((['a', 'b'] : List Char).take 1).length 0
        ((['a', 'b'] : List Char).take 1).length := by
  have h := writer_overloads_funnel noopPrim 0 'c' ['d'] none 0 ['a', 'b']
    1 1 0 1 (by decide) (by decide) (by decide)
  refine ⟨by decide, by decide, by decide, h.2.2.2.2.2.1, ?_⟩
  simpa using h.2.2.2.2.2.2.2.2

/-- An ok result of a mutex delegation keeps the wrapped stream state. -/
theorem map_decor_ok {σ μ : Type} (st r : DecoratorState σ μ)
    (x : Except StreamError μ)
    (h : x.map (fun ms =>
      ({ innerState := st.innerState, mutexState := ms } : DecoratorState σ μ)) = .ok r) :
    r.innerState = st.innerState := by
  cases x with
  | ok ms =>
    simp [Except.map] at h
    cases h
    rfl
  | error e => simp [Except.map] at h

/-- C9: each Monitor operation of the decorator (lock, unlock, wait, timed
wait, notify, notifyAll) is exactly the same operation of the internal
mutex applied to the mutex state, and the wrapped stream state is never
touched. -/
theorem filter_monitor_delegates {σ μ : Type} (f : FilterInputStream σ μ)
    (st : DecoratorState σ μ) (millisecs : Nat) :
    (f.lock st = (f.mutex.lockFn st.mutexState).map
      (fun ms => { innerState := st.innerState, mutexState := ms }) ∧
     f.unlock st = (f.mutex.unlockFn st.mutexState).map
      (fun ms => { innerState := st.innerState, mutexState := ms }) ∧
     f.waitOn st = (f.mutex.waitFn st.mutexState).map
      (fun ms => { innerState := st.innerState, mutexState := ms }) ∧
     f.waitTimed st millisecs = (f.mutex.waitTimedFn st.mutexState millisecs).map
      (fun ms => { innerState := st.innerState, mutexState := ms }) ∧
     f.notifyOne st = (f.mutex.notifyFn st.mutexState).map
      (fun ms => { innerState := st.innerState, mutexState := ms }) ∧
     f.notifyEvery st = (f.mutex.notifyAllFn st.mutexState).map
      (fun ms => { innerState := st.innerState, mutexState := ms })) ∧
    ((∀ r, f.lock st = .ok r → r.innerState = st.innerState) ∧
     (∀ r, f.unlock st = .ok r → r.innerState = st.innerState) ∧
     (∀ r, f.waitOn st = .ok r → r.innerState = st.innerState) ∧
     (∀ r, f.waitTimed st millisecs = .ok r → r.innerState = st.innerState) ∧
     (∀ r, f.notifyOne st = .ok r → r.innerState = st.innerState) ∧
     (∀ r, f.notifyEvery st = .ok r → r.innerState = st.innerState)) := by
  refine ⟨⟨rfl, rfl, rfl, rfl, rfl, rfl⟩, ?_, ?_, ?_, ?_, ?_, ?_⟩
  · exact fun r h => map_decor_ok st r _ h
  · exact fun r h => map_decor_ok st r _ h
  · exact fun r h => map_decor_ok st r _ h
  · exact fun r h => map_decor_ok st r _ h
  · exact fun r h => map_decor_ok st r _ h
  · exact fun r h => map_decor_ok st r _ h

/-- Witness for C9: locking the concrete decorator built on the unit mutex
delegates to the mutex and keeps the wrapped stream state 4. -/
theorem filter_monitor_delegates_witness :
    FilterInputStream.lock ⟨pureStream, unitMutex, false⟩
      { innerState := 4, mutexState := () } =
      .ok { innerState := 4, mutexState := () } := by
  have h := filter_monitor_delegates ⟨pureStream, unitMutex, false⟩
    { innerState := 4, mutexState := () } 10
  simpa [unitMutex, Except.map] using h.1.1

/-- Every value the unsigned char conversion can produce is below 256. -/
theorem ucharOfRead_lt (r : Option Nat) : ucharOfRead r < 256 := by
  cases r with
  | none => decide
  | some b => exact Nat.mod_lt b (by decide)

/-- C10: the decorator's single-unit read always yields a value in the
unsigned char range 0 to 255; at end of stream the documented sentinel -1
comes back through that type as 255, exactly what the data byte 0xFF also
yields, so the two cases cannot be told apart. -/
theorem filter_read_uchar_range {σ μ : Type} (f : FilterInputStream σ μ)
    (st : σ) :
    (∀ v st2, f.read st = .ok (v, st2) → v < 256) ∧
    (∀ st2, f.inputStream.readOneDoc st = .ok (none, st2) →
       f.read st = .ok (255, st2)) ∧
    (∀ st2, f.inputStream.readOneDoc st = .ok (some 255, st2) →
       f.read st = .ok (255, st2)) := by
  refine ⟨?_, ?_, ?_⟩
  · intro v st2 h
    cases hd : f.inputStream.readOneDoc st with
    | ok p =>
      have h1 : ucharOfRead p.1 = v := by
        simp [FilterInputStream.read, InputStream.readOne, hd, Except.map,
              mapErr] at h
        exact h.1
      rw [← h1]
      exact ucharOfRead_lt p.1
    | error e =>
      simp [FilterInputStream.read, InputStream.readOne, hd, Except.map,
            mapErr] at h
  · intro st2 h
    simp [FilterInputStream.read, InputStream.readOne, h, Except.map, mapErr,
          ucharOfRead, toUnsignedChar, eofSentinel]
  · intro st2 h
    simp [FilterInputStream.read, InputStream.readOne, h, Except.map, mapErr,
          ucharOfRead]

/-- Witness for C10: reading the decorator over eofStream, which is at end
of stream, yields the value 255. -/
theorem filter_read_uchar_range_witness :
    eofStream.readOneDoc 0 = .ok (none, 0) ∧
    FilterInputStream.read ⟨eofStream, unitMutex, false⟩ 0 = .ok (255, 0) := by
  have h := filter_read_uchar_range ⟨eofStream, unitMutex, false⟩ 0
  exact ⟨rfl, h.2.1 0 rfl⟩
